import Mathlib

/-!
Shallow embedding of the PubChem search interface (`src/exp.py`) and proofs
about its query-dispatch and result-presentation logic.

Modelling conventions:
* The UI framework (`st.*`), the HTTP transport (`requests`), the JSON parser
  (`json.loads`) and the image decoder (`PIL.Image`) are external
  collaborators.  UI writes are modelled as an emitted list of `Output`
  values; transport results, JSON parsing and image decoding are supplied by
  an `Env` record, with the error cases of the libraries (connection errors,
  `json.JSONDecodeError`, `PIL.UnidentifiedImageError`, `TypeError`) modelled
  by `Except PyExc`.
* Uncaught Python exceptions escaping a handler are the `some e` component of
  a `List Output × Option PyExc` result: the outputs emitted before the raise
  are kept, nothing after it runs.
* Python float inputs of the mass branch are taken as the decimal strings
  that the source interpolates into its f-strings.
-/

namespace Pubchem

/-- A transport-level HTTP response: status code, reason phrase, text body and
raw byte content (bytes as naturals). -/
structure HttpResponse where
  status : Nat
  reason : String
  text : String
  content : List Nat
deriving DecidableEq

/-- Python exceptions that the script can raise or the libraries can report. -/
inductive PyExc where
  | typeError (msg : String)
  | jsonError (msg : String)
  | imageError (msg : String)
  | transport (msg : String)
deriving DecidableEq

/-- The message text of an exception (used in `fetch_data`'s error banner). -/
def PyExc.msg : PyExc → String
  | .typeError m => m
  | .jsonError m => m
  | .imageError m => m
  | .transport m => m

/-- An abstract parsed JSON document (content opaque to the dispatch logic). -/
structure JsonDoc where
  doc : String
deriving DecidableEq

/-- A decoded PIL image: only its pixel dimensions matter to this logic. -/
structure PILImage where
  width : Nat
  height : Nat
deriving DecidableEq

/-- Model of `img.resize((w, h))`: produces an image of the requested dimensions. -/
def resizeImg (_img : PILImage) (w h : Nat) : PILImage := ⟨w, h⟩

/-- One UI write performed by the script (`st.error`, `st.warning`,
`st.write`, `st.success`, `st.json`, `st.image`, `st.download_button`).
A `st.write` f-string that embeds a Python list is modelled structurally as
`textList label items`. -/
inductive Output where
  | errorMsg (s : String)
  | warning (s : String)
  | write (s : String)
  | success (s : String)
  | textList (label : String) (items : List String)
  | json (j : JsonDoc)
  | image (img : PILImage) (caption : String)
  | download (content : List Nat) (name : String)
deriving DecidableEq

/-- The external collaborators: JSON parsing of a body text, image decoding
of body bytes, and the transport result of the image GET issued by
`display_structure` for each CID. -/
structure Env where
  jsonLoads : String → Except PyExc JsonDoc
  decode : List Nat → Except PyExc PILImage
  imageResponse : String → Except PyExc HttpResponse

/-! ### Python string helpers: `str.strip()` and `str.split()` -/

/-- Model of `str.split()` with no separator: split on runs of whitespace, dropping
empty tokens.  `acc` holds the reversed current token. -/
def pySplitChars : List Char → List Char → List (List Char)
  | [], acc => if acc.isEmpty then [] else [acc.reverse]
  | c :: cs, acc =>
    if c.isWhitespace then
      if acc.isEmpty then pySplitChars cs [] else acc.reverse :: pySplitChars cs []
    else pySplitChars cs (c :: acc)

/-- Model of `str.strip()` on a character list: drop leading and trailing whitespace. -/
def pyStripChars (l : List Char) : List Char :=
  ((l.dropWhile Char.isWhitespace).reverse.dropWhile Char.isWhitespace).reverse

/-- Model of `s.strip()`. -/
def pyStrip (s : String) : String := String.mk (pyStripChars s.toList)

/-- Model of `s.split()`. -/
def pySplit (s : String) : List String :=
  (pySplitChars s.toList []).map String.mk

/-- Model of `s.strip().split()`, the TXT-response interpreter used by every
cids/sids branch of the source. -/
def stripSplit (s : String) : List String := pySplit (pyStrip s)

/-! ### QueryBuilder: endpoint URLs and request descriptors -/

def BASE_URL : String := "https://pubchem.ncbi.nlm.nih.gov/rest/pug"

inductive Method where
  | get
  | post
deriving DecidableEq

/-- A request descriptor holding method, url and bodyParams; `body` is the
`data=` mapping of a POST. -/
structure RequestDescriptor where
  method : Method
  url : String
  body : List (String × String)
deriving DecidableEq

def byCidUrl (cid : String) : String :=
  BASE_URL ++ "/compound/cid/" ++ cid ++ "/property/MolecularFormula,MolecularWeight,SMILES/JSON"

def byNameUrl (name : String) : String :=
  BASE_URL ++ "/compound/name/" ++ name ++ "/cids/TXT"

def bySmilesUrl (smiles : String) : String :=
  BASE_URL ++ "/compound/smiles/" ++ smiles ++ "/cids/TXT"

def byFormulaUrl (formula : String) : String :=
  BASE_URL ++ "/compound/fastformula/" ++ formula ++ "/cids/TXT"

def massEqUrl (massType massValue : String) : String :=
  BASE_URL ++ "/compound/" ++ massType ++ "/equals/" ++ massValue ++ "/cids/TXT"

def massRangeUrl (massType massMin massMax : String) : String :=
  BASE_URL ++ "/compound/" ++ massType ++ "/range/" ++ massMin ++ "/" ++ massMax ++ "/cids/TXT"

def structureUrl (searchType : String) : String :=
  BASE_URL ++ "/compound/fast" ++ searchType ++ "/smiles/cids/TXT"

def similarityUrl (threshold : Nat) : String :=
  BASE_URL ++ "/compound/fastsimilarity_2d/smiles/cids/TXT?Threshold=" ++ toString threshold

def viewJsonUrl (cid : String) : String :=
  BASE_URL ++ "/compound/cid/" ++ cid ++ "/JSON"

def sdfUrl (cid : String) : String :=
  BASE_URL ++ "/compound/cid/" ++ cid ++ "/SDF"

def xrefUrl (xrefType xrefValue : String) : String :=
  BASE_URL ++ "/substance/xref/" ++ xrefType ++ "/" ++ xrefValue ++ "/sids/JSON"

def imageUrl (cid : String) : String :=
  BASE_URL ++ "/compound/cid/" ++ cid ++ "/record/PNG?image_size=600x600"

/-- A search mode together with its mode-specific form-field values. -/
inductive ModeInput where
  | byCid (cid : String)
  | byName (name : String)
  | bySmiles (smiles : String)
  | byFormula (formula : String)
  | byMassEq (massType massValue : String)
  | byMassRange (massType massMin massMax : String)
  | byStructure (searchType smiles : String)
  | bySimilarity (smiles : String) (threshold : Nat)
  | viewJson (cid : String)
  | downloadSdf (cid : String)
  | crossRef (xrefType xrefValue : String)
deriving DecidableEq

/-- The request each branch hands to `fetch_data`, built from the branch's
straight-line endpoint construction.  The second component is the session
store (`st.session_state["similarity_cids"]`), which the construction code
never reads or writes and which therefore passes through unchanged. -/
def buildRequest : ModeInput → List String → RequestDescriptor × List String
  | .byCid cid, store => (⟨.get, byCidUrl cid, []⟩, store)
  | .byName name, store => (⟨.get, byNameUrl name, []⟩, store)
  | .bySmiles smiles, store => (⟨.get, bySmilesUrl smiles, []⟩, store)
  | .byFormula formula, store => (⟨.get, byFormulaUrl formula, []⟩, store)
  | .byMassEq t v, store => (⟨.get, massEqUrl t v, []⟩, store)
  | .byMassRange t lo hi, store => (⟨.get, massRangeUrl t lo hi, []⟩, store)
  | .byStructure ty smiles, store => (⟨.post, structureUrl ty, [("smiles", smiles)]⟩, store)
  | .bySimilarity smiles th, store => (⟨.post, similarityUrl th, [("smiles", smiles)]⟩, store)
  | .viewJson cid, store => (⟨.get, viewJsonUrl cid, []⟩, store)
  | .downloadSdf cid, store => (⟨.get, sdfUrl cid, []⟩, store)
  | .crossRef t v, store => (⟨.get, xrefUrl t v, []⟩, store)

/-- The sidebar radio options (source lines 68–80). -/
def searchMethodOptions : List String :=
  ["By CID", "By Name", "By SMILES", "By Molecular Formula", "By Mass",
   "By Structure Search (Substructure/Superstructure)", "View Full Records",
   "By Similarity Search"]

/-! ### ResponseInterpreter and action handlers -/

/-- The `st.error` banner of `fetch_data`'s non-200 path. -/
def errMsgOf (r : HttpResponse) : Output :=
  .errorMsg ("Error " ++ toString r.status ++ ": " ++ r.reason)

/-- Model of `fetch_data` (source lines 21–36): the transport result is either a raised
exception (caught by the surrounding `try`) or a response; a 200 response is
returned, anything else is surfaced as an `st.error` and `None` is returned. -/
def fetch_data (resp : Except PyExc HttpResponse) : Option HttpResponse × List Output :=
  match resp with
  | .error e => (none, [.errorMsg ("Failed to fetch data: " ++ e.msg)])
  | .ok r => if r.status = 200 then (some r, []) else (none, [errMsgOf r])

/-- Model of `display_structure` (source lines 39–54): GETs the CID's PNG (not through
`fetch_data`, so a transport exception is uncaught), decodes and resizes it on
a 200 (a decode exception is uncaught), and reports non-200 via `st.error`. -/
def display_structure (env : Env) (cid : String) : List Output × Option PyExc :=
  match env.imageResponse cid with
  | .error e => ([], some e)
  | .ok r =>
    if r.status = 200 then
      match env.decode r.content with
      | .error e => ([], some e)
      | .ok img => ([.image (resizeImg img 600 600) ("CID " ++ cid)], none)
    else
      ([.errorMsg ("Could not retrieve image for CID " ++ cid)], none)

/-- Model of `for cid in cids: display_structure(cid)`: an uncaught exception from one
iteration aborts the remaining iterations; outputs already rendered persist. -/
def viewLoop (env : Env) : List String → List Output × Option PyExc
  | [] => ([], none)
  | cid :: rest =>
    match display_structure env cid with
    | (outs, some e) => (outs, some e)
    | (outs, none) =>
      let (outs2, e2) := viewLoop env rest
      (outs ++ outs2, e2)

/-- Model of `handle_view_all` (source lines 57–63): warn when the store is empty,
otherwise display every stored CID in order. -/
def handle_view_all (env : Env) (store : List String) : List Output × Option PyExc :=
  if store.isEmpty then
    ([.warning "No compounds to display. Perform a search first."], none)
  else
    viewLoop env store

/-- The similarity "Search" action after the fetch (source lines 104–113):
takes the current store and the fetch result, returns the new store and the
outputs.  The store is overwritten only when the response exists and its
stripped text is non-empty; otherwise `st.error` fires and the store is kept. -/
def similaritySearchAction (store : List String) (resp : Except PyExc HttpResponse) :
    List String × List Output :=
  match fetch_data resp with
  | (some r, outs) =>
    if pyStrip r.text ≠ "" then
      let cids := stripSplit r.text
      (cids, outs ++ [.write ("Found " ++ toString cids.length ++ " similar compounds."),
                      .textList "CIDs:" cids])
    else
      (store, outs ++ [.errorMsg "No similar compounds found."])
  | (none, outs) => (store, outs ++ [.errorMsg "No similar compounds found."])

/-- The "By CID" search action (source lines 88–96): fetch the property JSON,
`st.json(loads(data.text))` (a parse exception is uncaught), then display the
structure. -/
def byCidBranch (env : Env) (cid : String) (resp : Except PyExc HttpResponse) :
    List Output × Option PyExc :=
  match fetch_data resp with
  | (none, outs) => (outs, none)
  | (some r, outs) =>
    match env.jsonLoads r.text with
    | .error e => (outs, some e)
    | .ok j =>
      let (outs2, e2) := display_structure env cid
      (outs ++ [.json j] ++ outs2, e2)

/-- The per-CID body of the "By Name" loop: `st.write(f"**CID {cid}**:")`
then `display_structure(cid)`. -/
def nameLoop (env : Env) : List String → List Output × Option PyExc
  | [] => ([], none)
  | cid :: rest =>
    match display_structure env cid with
    | (outs, some e) => (.write ("**CID " ++ cid ++ "**:") :: outs, some e)
    | (outs, none) =>
      let (outs2, e2) := nameLoop env rest
      (.write ("**CID " ++ cid ++ "**:") :: outs ++ outs2, e2)

/-- The "By Name" search action (source lines 153–165): guarded by
`if cids and cids.text.strip():` — an empty stripped body displays nothing. -/
def byNameBranch (env : Env) (resp : Except PyExc HttpResponse) :
    List Output × Option PyExc :=
  match fetch_data resp with
  | (none, outs) => (outs, none)
  | (some r, outs) =>
    if pyStrip r.text ≠ "" then
      let cids := stripSplit r.text
      let (outs2, e2) := nameLoop env cids
      (outs ++ [.textList "Found CIDs:" cids] ++ outs2, e2)
    else
      (outs, none)

/-- The shared post-fetch body of the "By SMILES", "By Molecular Formula",
both "By Mass" submodes and the "By Structure" search actions (source lines
168–235): `if cids:` then split, write the found list, and display each CID. -/
def cidsDisplayBranch (env : Env) (resp : Except PyExc HttpResponse) :
    List Output × Option PyExc :=
  match fetch_data resp with
  | (none, outs) => (outs, none)
  | (some r, outs) =>
    let cids := stripSplit r.text
    let (outs2, e2) := viewLoop env cids
    (outs ++ [.textList "Found CIDs:" cids] ++ outs2, e2)

/-- The "View as JSON" action (source lines 125–133): on success write the banner
and header, then `st.json(response.json())` — a parse exception is uncaught. -/
def viewJsonBranch (env : Env) (cid : String) (resp : Except PyExc HttpResponse) :
    List Output × Option PyExc :=
  match fetch_data resp with
  | (none, outs) =>
    (outs ++ [.errorMsg "Failed to retrieve the JSON response. Please ensure the CID is correct."],
     none)
  | (some r, outs) =>
    let pre : List Output :=
      [.success ("Successfully retrieved the JSON response for CID " ++ cid ++ "."),
       .write "### JSON Response:"]
    match env.jsonLoads r.text with
    | .error e => (outs ++ pre, some e)
    | .ok j => (outs ++ pre ++ [.json j], none)

/-- The "Download SDF" action (source lines 136–149): on success offer the raw
body bytes for download, untouched. -/
def sdfBranch (cid : String) (resp : Except PyExc HttpResponse) :
    List Output × Option PyExc :=
  match fetch_data resp with
  | (none, outs) =>
    (outs ++ [.errorMsg "Failed to retrieve the SDF file. Please ensure the CID is correct."], none)
  | (some r, outs) =>
    (outs ++ [.success ("Successfully retrieved the SDF file for CID " ++ cid ++ "."),
              .download r.content ("CID_" ++ cid ++ ".sdf")], none)

/-- A Python value handed to `json.loads`: the source passes either a body
string or, in the cross-reference branch, the `Response` object itself. -/
inductive PyVal where
  | str (s : String)
  | response (r : HttpResponse)

/-- Model of `json.loads` including its stdlib type dispatch: on a non-`str`/`bytes`
argument it raises `TypeError` before any parsing happens. -/
def loadsVal (env : Env) : PyVal → Except PyExc JsonDoc
  | .str s => env.jsonLoads s
  | .response _ =>
    .error (.typeError "the JSON object must be str, bytes or bytearray, not Response")

/-- The "By Cross Reference" branch (source lines 238–246): `st.json(loads(sids))`
where `sids` is the `Response` object, not its text. -/
def crossRefBranch (env : Env) (resp : Except PyExc HttpResponse) :
    List Output × Option PyExc :=
  match fetch_data resp with
  | (none, outs) => (outs, none)
  | (some r, outs) =>
    match loadsVal env (.response r) with
    | .error e => (outs, some e)
    | .ok j => (outs ++ [.json j], none)

/-- A concrete collaborator environment in which every image GET succeeds
except CID "9", which gets a 404, and decoding always succeeds. -/
def envGood : Env where
  jsonLoads := fun s => .ok ⟨s⟩
  decode := fun _ => .ok ⟨100, 100⟩
  imageResponse := fun cid =>
    if cid = "9" then .ok ⟨404, "Not Found", "", []⟩ else .ok ⟨200, "OK", "", [1]⟩

/-- A concrete collaborator environment in which CID "2"'s image bytes fail
to decode while every other CID fetches and decodes fine. -/
def envDecodeFail : Env where
  jsonLoads := fun s => .ok ⟨s⟩
  decode := fun bs =>
    if bs = [2] then .error (.imageError "cannot identify image file") else .ok ⟨300, 300⟩
  imageResponse := fun cid => .ok ⟨200, "OK", "", if cid = "2" then [2] else [1]⟩

/-- A concrete collaborator environment whose JSON parser rejects every body
(as `json.loads` does on malformed input). -/
def envParseFail : Env where
  jsonLoads := fun _ => .error (.jsonError "Expecting value: line 1 column 1 (char 0)")
  decode := fun _ => .ok ⟨1, 1⟩
  imageResponse := fun _ => .ok ⟨200, "OK", "", []⟩

/-! ### Occurrence counting (for the "verbatim exactly once" claims) -/

/-- Number of positions of `l` at which `pat` occurs as a contiguous block. -/
def countOccur (pat : List Char) : List Char → Nat
  | [] => if pat.isEmpty then 1 else 0
  | c :: cs => (if pat.isPrefixOf (c :: cs) then 1 else 0) + countOccur pat cs

/-- Number of occurrences of `pat` inside the string `s`. -/
def countOccurStr (s pat : String) : Nat := countOccur pat.toList s.toList

theorem isPrefixOf_append_self (l b : List Char) : l.isPrefixOf (l ++ b) = true := by
  induction l with
  | nil => cases b <;> rfl
  | cons c cs ih => simp [List.isPrefixOf, ih]

theorem one_le_countOccur (a pat b : List Char) : 1 ≤ countOccur pat (a ++ pat ++ b) := by
  induction a with
  | nil =>
    cases pat with
    | nil =>
      induction b with
      | nil => simp [countOccur]
      | cons c cs ih =>
        have h : countOccur [] (c :: cs) =
            (if List.isPrefixOf [] (c :: cs) then 1 else 0) + countOccur [] cs := rfl
        simp only [List.nil_append] at ih ⊢
        rw [h]
        exact le_trans ih (Nat.le_add_left _ _)
    | cons p ps =>
      have h : countOccur (p :: ps) ((p :: ps) ++ b) =
          (if List.isPrefixOf (p :: ps) ((p :: ps) ++ b) then 1 else 0) +
            countOccur (p :: ps) (ps ++ b) := rfl
      simp only [List.nil_append]
      rw [h, isPrefixOf_append_self]
      simp
  | cons c cs ih =>
    have h : countOccur pat ((c :: cs) ++ pat ++ b) =
        (if List.isPrefixOf pat ((c :: cs) ++ pat ++ b) then 1 else 0) +
          countOccur pat (cs ++ pat ++ b) := rfl
    rw [h]
    exact le_trans ih (Nat.le_add_left _ _)

/-- Occurrence of a pattern inside a string of the shape `a ++ pat ++ b`. -/
theorem one_le_countOccurStr (a pat b : String) :
    1 ≤ countOccurStr (a ++ pat ++ b) pat := by
  have h : (a ++ pat ++ b).toList = a.toList ++ pat.toList ++ b.toList := by
    simp [String.toList]
  simpa [countOccurStr, h] using one_le_countOccur a.toList pat.toList b.toList

/-! ### Token structure of `str.split()` -/

theorem pySplitChars_tokens (l : List Char) :
    ∀ acc, (∀ c ∈ acc, c.isWhitespace = false) →
      ∀ t ∈ pySplitChars l acc, t ≠ [] ∧ ∀ c ∈ t, c.isWhitespace = false := by
  induction l with
  | nil =>
    intro acc hacc t ht
    cases acc with
    | nil => simp [pySplitChars] at ht
    | cons a as =>
      simp only [pySplitChars, List.isEmpty_cons, Bool.false_eq_true, if_false,
        List.mem_singleton] at ht
      subst ht
      refine ⟨by simp, ?_⟩
      intro x hx
      exact hacc x (List.mem_reverse.mp hx)
  | cons c cs ih =>
    intro acc hacc t ht
    cases hw : c.isWhitespace with
    | false =>
      simp only [pySplitChars, hw, Bool.false_eq_true, if_false] at ht
      refine ih (c :: acc) ?_ t ht
      intro x hx
      rcases List.mem_cons.mp hx with h | h
      · exact h ▸ hw
      · exact hacc x h
    | true =>
      cases acc with
      | nil =>
        simp only [pySplitChars, hw, if_true, List.isEmpty_nil] at ht
        exact ih [] (by simp) t ht
      | cons a as =>
        simp only [pySplitChars, hw, if_true, List.isEmpty_cons, Bool.false_eq_true, if_false,
          List.mem_cons] at ht
        rcases ht with h | h
        · subst h
          refine ⟨by simp, ?_⟩
          intro x hx
          exact hacc x (List.mem_reverse.mp hx)
        · exact ih [] (by simp) t h

/-- Every token of `s.strip().split()` is non-empty and whitespace-free. -/
theorem stripSplit_tokens (s : String) :
    ∀ t ∈ stripSplit s, t ≠ "" ∧ ∀ c ∈ t.toList, c.isWhitespace = false := by
  intro t ht
  simp only [stripSplit, pySplit, List.mem_map] at ht
  obtain ⟨u, hu, rfl⟩ := ht
  obtain ⟨hne, hws⟩ := pySplitChars_tokens _ [] (by simp) u hu
  constructor
  · intro h
    apply hne
    have : (String.mk u).toList = ("" : String).toList := by rw [h]
    simpa using this
  · intro c hc
    exact hws c (by simpa using hc)

/-- Occurrence bound stated through an explicit decomposition of the string's
character list, so it applies to any association of the `++` chain. -/
theorem one_le_countOccurStr' (s pat : String) (a b : List Char)
    (h : s.toList = a ++ pat.toList ++ b) : 1 ≤ countOccurStr s pat := by
  have h' : s.data = a ++ pat.data ++ b := h
  simpa [countOccurStr, String.toList, h'] using one_le_countOccur a pat.data b

theorem filter_dropWhile_ws (l : List Char) :
    (l.dropWhile Char.isWhitespace).filter (fun c => !c.isWhitespace) =
      l.filter (fun c => !c.isWhitespace) := by
  conv_rhs => rw [← List.takeWhile_append_dropWhile (p := Char.isWhitespace) (l := l)]
  rw [List.filter_append]
  have h : (l.takeWhile Char.isWhitespace).filter (fun c => !c.isWhitespace) = [] := by
    rw [List.filter_eq_nil_iff]
    intro a ha
    have := List.mem_takeWhile_imp ha
    simp [this]
  simp [h]

theorem filter_pyStripChars (l : List Char) :
    (pyStripChars l).filter (fun c => !c.isWhitespace) =
      l.filter (fun c => !c.isWhitespace) := by
  unfold pyStripChars
  rw [List.filter_reverse, filter_dropWhile_ws, List.filter_reverse, List.reverse_reverse,
    filter_dropWhile_ws]

theorem pySplitChars_flatten (l : List Char) :
    ∀ acc, (pySplitChars l acc).flatten =
      acc.reverse ++ l.filter (fun c => !c.isWhitespace) := by
  induction l with
  | nil =>
    intro acc
    cases acc with
    | nil => simp [pySplitChars]
    | cons a as => simp [pySplitChars]
  | cons c cs ih =>
    intro acc
    cases hw : c.isWhitespace with
    | false =>
      simp only [pySplitChars, hw, Bool.false_eq_true, if_false]
      rw [ih]
      simp [hw]
    | true =>
      cases acc with
      | nil =>
        simp only [pySplitChars, hw, if_true, List.isEmpty_nil]
        rw [ih]
        simp [hw]
      | cons a as =>
        simp only [pySplitChars, hw, if_true, List.isEmpty_cons, Bool.false_eq_true, if_false]
        simp only [List.flatten_cons]
        rw [ih]
        simp [hw]

/-- Joining the tokens of `s.strip().split()` recovers exactly the
non-whitespace characters of `s`, in order. -/
theorem stripSplit_flatten (s : String) :
    ((stripSplit s).map String.toList).flatten =
      s.toList.filter (fun c => !c.isWhitespace) := by
  have h1 : (stripSplit s).map String.toList = pySplitChars (pyStripChars s.toList) [] := by
    simp only [stripSplit, pySplit, pyStrip, List.map_map]
    have : String.toList ∘ String.mk = id := by
      funext l
      rfl
    simp [this, String.toList]
  rw [h1, pySplitChars_flatten, filter_pyStripChars]
  simp

/-- An empty stripped body splits into no tokens. -/
theorem stripSplit_eq_nil {s : String} (h : pyStrip s = "") : stripSplit s = [] := by
  have hl : pyStripChars s.data = [] := by
    have h2 := congrArg String.toList h
    simpa [pyStrip, String.toList] using h2
  simp [stripSplit, pySplit, pyStrip, String.toList, hl, pySplitChars]

/-! ### Claims -/

/-- Claim C1, counterexample: a BySimilarity search whose 200 response body is
empty after trimming does NOT replace the store with an empty sequence — with
a previously stored CID list `["99"]` the store still holds `["99"]`
afterwards, and only the "No similar compounds found." error is emitted. -/
theorem similarity_empty_does_not_replace :
    similaritySearchAction ["99"] (.ok ⟨200, "OK", "", []⟩) =
      (["99"], [.errorMsg "No similar compounds found."]) ∧
    (["99"] : List String) ≠ [] := by
  constructor
  · decide
  · decide

/-- Claim C1, amended: a BySimilarity search whose 200 response body is empty
after trimming leaves the store unchanged (the assignment is skipped) and
reports "No similar compounds found." via an error message; only when the
store was already empty before the search does a subsequent "View All" report
the no-compounds warning. -/
theorem similarity_empty_store_unchanged (env : Env) (store : List String)
    (r : HttpResponse) (h200 : r.status = 200) (hempty : pyStrip r.text = "") :
    similaritySearchAction store (.ok r) =
      (store, [.errorMsg "No similar compounds found."]) ∧
    (store = [] →
      handle_view_all env store =
        ([.warning "No compounds to display. Perform a search first."], none)) := by
  constructor
  · simp [similaritySearchAction, fetch_data, h200, hempty]
  · intro hs
    subst hs
    simp [handle_view_all]

/-- Witness for `similarity_empty_store_unchanged` at a concrete empty-bodied
200 response and the empty store. -/
theorem similarity_empty_store_unchanged_wit :
    similaritySearchAction [] (.ok ⟨200, "OK", " \n", []⟩) =
      ([], [.errorMsg "No similar compounds found."]) ∧
    (([] : List String) = [] →
      handle_view_all envGood [] =
        ([.warning "No compounds to display. Perform a search first."], none)) :=
  similarity_empty_store_unchanged envGood [] ⟨200, "OK", " \n", []⟩ (by decide) (by decide)

/-- Claim C4, counterexample: in the BySimilarity mode a 200 response with an
empty-after-trim body is reported through `st.error` — an error message, not a
distinct non-error "no results" outcome. -/
theorem similarity_empty_reported_as_error :
    (similaritySearchAction [] (.ok ⟨200, "OK", "  \n", []⟩)).2 =
      [Output.errorMsg "No similar compounds found."] := by
  decide

/-- Claim C4, amended: on a 200 TXT response whose body is empty after
trimming, the SMILES/Formula/Mass/Structure branches display the empty CID
list ("Found CIDs: []", no error), the ByName branch displays nothing at all,
and the BySimilarity branch reports it via the "No similar compounds found."
error message. -/
theorem empty_txt_body_outcomes (env : Env) (store : List String) (r : HttpResponse)
    (h200 : r.status = 200) (hempty : pyStrip r.text = "") :
    cidsDisplayBranch env (.ok r) = ([.textList "Found CIDs:" []], none) ∧
    byNameBranch env (.ok r) = ([], none) ∧
    (similaritySearchAction store (.ok r)).2 =
      [.errorMsg "No similar compounds found."] := by
  have hnil := stripSplit_eq_nil hempty
  refine ⟨?_, ?_, ?_⟩
  · simp [cidsDisplayBranch, fetch_data, h200, hnil, viewLoop]
  · simp [byNameBranch, fetch_data, h200, hempty]
  · simp [similaritySearchAction, fetch_data, h200, hempty]

/-- Witness for `empty_txt_body_outcomes` at a concrete whitespace-only body. -/
theorem empty_txt_body_outcomes_wit :
    cidsDisplayBranch envGood (.ok ⟨200, "OK", " \t", []⟩) =
      ([.textList "Found CIDs:" []], none) ∧
    byNameBranch envGood (.ok ⟨200, "OK", " \t", []⟩) = ([], none) ∧
    (similaritySearchAction ["5"] (.ok ⟨200, "OK", " \t", []⟩)).2 =
      [.errorMsg "No similar compounds found."] :=
  empty_txt_body_outcomes envGood ["5"] ⟨200, "OK", " \t", []⟩ (by decide) (by decide)

/-- Claim C8: a BySimilarity search whose 200 response has a non-empty
stripped body replaces the whole store with the split of that body,
independently of the previous store content — nothing is appended. -/
theorem similarity_nonempty_replaces (store : List String) (r : HttpResponse)
    (h200 : r.status = 200) (hne : pyStrip r.text ≠ "") :
    similaritySearchAction store (.ok r) =
      (stripSplit r.text,
       [.write ("Found " ++ toString (stripSplit r.text).length ++ " similar compounds."),
        .textList "CIDs:" (stripSplit r.text)]) := by
  simp [similaritySearchAction, fetch_data, h200, hne]

/-- Witness for `similarity_nonempty_replaces`: a second search with body
"10 20" replaces a previous one-element store. -/
theorem similarity_nonempty_replaces_wit :
    similaritySearchAction ["7"] (.ok ⟨200, "OK", "10 20", []⟩) =
      (stripSplit "10 20",
       [.write ("Found " ++ toString (stripSplit "10 20").length ++ " similar compounds."),
        .textList "CIDs:" (stripSplit "10 20")]) :=
  similarity_nonempty_replaces ["7"] ⟨200, "OK", "10 20", []⟩ (by decide) (by decide)

/-- Claim C7: in every search mode a non-200 response yields the `st.error`
banner carrying the original status code and reason (via `fetch_data`), no
display artifact is produced from the response, and no exception escapes. -/
theorem non200_yields_http_error (env : Env) (store : List String) (cid : String)
    (r : HttpResponse) (h : r.status ≠ 200) :
    fetch_data (.ok r) = (none, [errMsgOf r]) ∧
    byCidBranch env cid (.ok r) = ([errMsgOf r], none) ∧
    byNameBranch env (.ok r) = ([errMsgOf r], none) ∧
    cidsDisplayBranch env (.ok r) = ([errMsgOf r], none) ∧
    similaritySearchAction store (.ok r) =
      (store, [errMsgOf r, .errorMsg "No similar compounds found."]) ∧
    viewJsonBranch env cid (.ok r) =
      ([errMsgOf r,
        .errorMsg "Failed to retrieve the JSON response. Please ensure the CID is correct."],
       none) ∧
    sdfBranch cid (.ok r) =
      ([errMsgOf r,
        .errorMsg "Failed to retrieve the SDF file. Please ensure the CID is correct."],
       none) ∧
    crossRefBranch env (.ok r) = ([errMsgOf r], none) := by
  refine ⟨?_, ?_, ?_, ?_, ?_, ?_, ?_, ?_⟩ <;>
    simp [fetch_data, byCidBranch, byNameBranch, cidsDisplayBranch, similaritySearchAction,
      viewJsonBranch, sdfBranch, crossRefBranch, h]

/-- Witness for `non200_yields_http_error` at a concrete 404 response. -/
theorem non200_yields_http_error_wit :
    fetch_data (.ok ⟨404, "Not Found", "", []⟩) =
      (none, [errMsgOf ⟨404, "Not Found", "", []⟩]) ∧
    byCidBranch envGood "2244" (.ok ⟨404, "Not Found", "", []⟩) =
      ([errMsgOf ⟨404, "Not Found", "", []⟩], none) ∧
    byNameBranch envGood (.ok ⟨404, "Not Found", "", []⟩) =
      ([errMsgOf ⟨404, "Not Found", "", []⟩], none) ∧
    cidsDisplayBranch envGood (.ok ⟨404, "Not Found", "", []⟩) =
      ([errMsgOf ⟨404, "Not Found", "", []⟩], none) ∧
    similaritySearchAction ["1"] (.ok ⟨404, "Not Found", "", []⟩) =
      (["1"], [errMsgOf ⟨404, "Not Found", "", []⟩,
               .errorMsg "No similar compounds found."]) ∧
    viewJsonBranch envGood "2244" (.ok ⟨404, "Not Found", "", []⟩) =
      ([errMsgOf ⟨404, "Not Found", "", []⟩,
        .errorMsg "Failed to retrieve the JSON response. Please ensure the CID is correct."],
       none) ∧
    sdfBranch "2244" (.ok ⟨404, "Not Found", "", []⟩) =
      ([errMsgOf ⟨404, "Not Found", "", []⟩,
        .errorMsg "Failed to retrieve the SDF file. Please ensure the CID is correct."],
       none) ∧
    crossRefBranch envGood (.ok ⟨404, "Not Found", "", []⟩) =
      ([errMsgOf ⟨404, "Not Found", "", []⟩], none) :=
  non200_yields_http_error envGood ["1"] "2244" ⟨404, "Not Found", "", []⟩ (by decide)

/-- Claim C10: "By Cross Reference" is not among the mode selector's options,
so its branch is unreachable from the UI; and even when entered with a 200
response, `loads` is applied to the response object itself, so the branch
raises a `TypeError` and never displays a result. -/
theorem crossref_unreachable_and_raises (env : Env) (r : HttpResponse)
    (h200 : r.status = 200) :
    "By Cross Reference" ∉ searchMethodOptions ∧
    crossRefBranch env (.ok r) =
      ([], some (.typeError "the JSON object must be str, bytes or bytearray, not Response")) := by
  constructor
  · decide
  · simp [crossRefBranch, fetch_data, h200, loadsVal]

/-- Witness for `crossref_unreachable_and_raises` at a concrete 200 response. -/
theorem crossref_unreachable_and_raises_wit :
    "By Cross Reference" ∉ searchMethodOptions ∧
    crossRefBranch envGood (.ok ⟨200, "OK", "ok", []⟩) =
      ([], some (.typeError "the JSON object must be str, bytes or bytearray, not Response")) :=
  crossref_unreachable_and_raises envGood ⟨200, "OK", "ok", []⟩ (by decide)

/-- Helper for the fault-isolation claim: when no iteration of the display
loop raises, the loop's output is exactly the concatenation of each CID's own
outputs and no exception escapes. -/
theorem viewLoop_no_exception (env : Env) :
    ∀ cids : List String, (∀ c ∈ cids, (display_structure env c).2 = none) →
      viewLoop env cids = ((cids.map (fun c => (display_structure env c).1)).flatten, none) := by
  intro cids
  induction cids with
  | nil =>
    intro _
    simp [viewLoop]
  | cons c cs ih =>
    intro h
    have hc := h c (List.mem_cons_self c cs)
    have ihh := ih (fun x hx => h x (List.mem_cons_of_mem _ hx))
    rcases hdc : display_structure env c with ⟨outs, exc⟩
    cases exc with
    | some e =>
      rw [hdc] at hc
      simp at hc
    | none =>
      simp only [viewLoop, hdc, ihh]
      simp [hdc]

/-- Claim C2, counterexample: in the "View All" batch over CIDs 1, 2, 3 where
CID 2's bytes fail to decode, CID 1 renders but the decode error raises an
uncaught exception: no error is reported for CID 2 and CID 3 is never
processed, contradicting per-CID fault isolation for decode errors. -/
theorem view_all_decode_error_aborts :
    handle_view_all envDecodeFail ["1", "2", "3"] =
      ([.image ⟨600, 600⟩ "CID 1"], some (.imageError "cannot identify image file")) := by
  decide

/-- Claim C2, amended: a non-200 image response is reported per-CID (an
`st.error` for that CID only, no exception), and as long as no iteration
raises (in particular when failures are only non-200 responses) the batch
processes every CID, each contributing exactly its own outputs; an image
decode error, however, raises and aborts the remaining CIDs. -/
theorem view_all_fault_isolation (env : Env) (cids : List String) (cid : String)
    (r : HttpResponse)
    (h : ∀ c ∈ cids, (display_structure env c).2 = none)
    (hir : env.imageResponse cid = .ok r) (h200 : r.status ≠ 200) :
    viewLoop env cids = ((cids.map (fun c => (display_structure env c).1)).flatten, none) ∧
    display_structure env cid =
      ([.errorMsg ("Could not retrieve image for CID " ++ cid)], none) :=
  ⟨viewLoop_no_exception env cids h, by simp [display_structure, hir, h200]⟩

/-- Witness for `view_all_fault_isolation`: batch ["1", "9"] where "9" gets a
404 — both CIDs are processed and "9" contributes only its error banner. -/
theorem view_all_fault_isolation_wit :
    viewLoop envGood ["1", "9"] =
      (((["1", "9"] : List String).map (fun c => (display_structure envGood c).1)).flatten,
       none) ∧
    display_structure envGood "9" =
      ([.errorMsg ("Could not retrieve image for CID " ++ "9")], none) :=
  view_all_fault_isolation envGood ["1", "9"] "9" ⟨404, "Not Found", "", []⟩
    (by decide) rfl (by decide)

/-- Claim C3, counterexample: a malformed JSON body on a 200 "By CID" response
makes `loads(data.text)` raise, and the exception escapes the action handler
instead of being surfaced as a user-visible message. -/
theorem bycid_parse_error_escapes :
    (byCidBranch envParseFail "2244" (.ok ⟨200, "OK", "not json", []⟩)).2 =
      some (.jsonError "Expecting value: line 1 column 1 (char 0)") := by
  decide

/-- Claim C3, amended: errors arising inside `fetch_data` — transport
exceptions and non-200 statuses — are caught there and surfaced as
user-visible error messages, with no exception escaping the handler; but JSON
parse errors on a 200 body (By CID, View-as-JSON, Cross-Reference) and image
fetch/decode errors inside `display_structure` are uncaught and escape. -/
theorem fetch_errors_caught (env : Env) (cid : String) (e : PyExc) (r : HttpResponse)
    (h : r.status ≠ 200) :
    byCidBranch env cid (.error e) =
      ([.errorMsg ("Failed to fetch data: " ++ e.msg)], none) ∧
    byCidBranch env cid (.ok r) = ([errMsgOf r], none) := by
  constructor <;> simp [byCidBranch, fetch_data, h]

/-- Witness for `fetch_errors_caught` at a concrete transport failure and a
concrete 500 response. -/
theorem fetch_errors_caught_wit :
    byCidBranch envGood "2244" (.error (.transport "connection refused")) =
      ([.errorMsg ("Failed to fetch data: " ++ (PyExc.transport "connection refused").msg)],
       none) ∧
    byCidBranch envGood "2244" (.ok ⟨500, "Internal Server Error", "", []⟩) =
      ([errMsgOf ⟨500, "Internal Server Error", "", []⟩], none) :=
  fetch_errors_caught envGood "2244" (.transport "connection refused")
    ⟨500, "Internal Server Error", "", []⟩ (by decide)

/-- Claim C6: the TXT interpreter splits the body on whitespace — the example
body yields exactly ["123", "456", "789"]; every token is non-empty and
whitespace-free; and the tokens concatenate back to exactly the
non-whitespace characters of the body, in order. -/
theorem txt_split_tokens :
    stripSplit "  123 456 789  \n" = ["123", "456", "789"] ∧
    (∀ body t c, t ∈ stripSplit body → c ∈ t.toList →
      t ≠ "" ∧ c.isWhitespace = false) ∧
    ∀ body, ((stripSplit body).map String.toList).flatten =
      body.toList.filter (fun c => !c.isWhitespace) := by
  refine ⟨by decide, ?_, stripSplit_flatten⟩
  intro body t c ht hc
  exact ⟨(stripSplit_tokens body t ht).1, (stripSplit_tokens body t ht).2 c hc⟩

/-- Witness for `txt_split_tokens` at the example body, the token "123" and
its character '1', and the body "a b". -/
theorem txt_split_tokens_wit :
    stripSplit "  123 456 789  \n" = ["123", "456", "789"] ∧
    (("123" : String) ≠ "" ∧ ('1' : Char).isWhitespace = false) ∧
    ((stripSplit "a b").map String.toList).flatten =
      "a b".toList.filter (fun c => !c.isWhitespace) :=
  ⟨txt_split_tokens.1,
   txt_split_tokens.2.1 "  123 456 789  \n" "123" '1' (by decide) (by decide),
   txt_split_tokens.2.2 "a b"⟩

/-- Claim C9: the request descriptor is a function of the mode and its form
values only — two constructions with the same mode and inputs but different
stored similarity results are identical, and construction leaves the store
untouched. -/
theorem request_independent_of_store (m : ModeInput) (s₁ s₂ store : List String) :
    (buildRequest m s₁).1 = (buildRequest m s₂).1 ∧ (buildRequest m store).2 = store := by
  constructor
  · cases m <;> rfl
  · cases m <;> rfl

/-- Claim C5, counterexample: the ByName URL for the input "compound" contains
the input twice (it collides with the literal path segment), and the
BySimilarity request carries its SMILES input "XYZ" in the POST body, with the
URL containing it zero times — so "URL contains every mode-specific input
value verbatim exactly once" fails in both directions. -/
theorem url_verbatim_once_refuted :
    (buildRequest (.byName "compound") []).1.url = byNameUrl "compound" ∧
    countOccurStr (byNameUrl "compound") "compound" = 2 ∧
    (buildRequest (.bySimilarity "XYZ" 90) []).1 =
      ⟨.post, similarityUrl 90, [("smiles", "XYZ")]⟩ ∧
    countOccurStr (similarityUrl 90) "XYZ" = 0 := by
  refine ⟨rfl, by decide, rfl, by decide⟩

/-- Claim C5, amended: for every supported mode, every mode-specific input
value is interpolated into the request — it occurs at least once in the URL
for the GET-mode path inputs, the structure search type and the similarity
threshold, and verbatim in the POST body for the SMILES of the ByStructure
and BySimilarity modes (possibly more than once as a URL substring when the
value collides with literal URL text); the HTTP method is POST exactly for
ByStructure and BySimilarity and GET for every other mode. -/
theorem request_inputs_and_methods (cid name smiles formula t v lo hi ty xt xv : String)
    (th : Nat) (store : List String) :
    ((buildRequest (.byCid cid) store).1.method = .get ∧
      1 ≤ countOccurStr (buildRequest (.byCid cid) store).1.url cid) ∧
    ((buildRequest (.byName name) store).1.method = .get ∧
      1 ≤ countOccurStr (buildRequest (.byName name) store).1.url name) ∧
    ((buildRequest (.bySmiles smiles) store).1.method = .get ∧
      1 ≤ countOccurStr (buildRequest (.bySmiles smiles) store).1.url smiles) ∧
    ((buildRequest (.byFormula formula) store).1.method = .get ∧
      1 ≤ countOccurStr (buildRequest (.byFormula formula) store).1.url formula) ∧
    ((buildRequest (.byMassEq t v) store).1.method = .get ∧
      1 ≤ countOccurStr (buildRequest (.byMassEq t v) store).1.url t ∧
      1 ≤ countOccurStr (buildRequest (.byMassEq t v) store).1.url v) ∧
    ((buildRequest (.byMassRange t lo hi) store).1.method = .get ∧
      1 ≤ countOccurStr (buildRequest (.byMassRange t lo hi) store).1.url t ∧
      1 ≤ countOccurStr (buildRequest (.byMassRange t lo hi) store).1.url lo ∧
      1 ≤ countOccurStr (buildRequest (.byMassRange t lo hi) store).1.url hi) ∧
    ((buildRequest (.byStructure ty smiles) store).1.method = .post ∧
      (buildRequest (.byStructure ty smiles) store).1.body = [("smiles", smiles)] ∧
      1 ≤ countOccurStr (buildRequest (.byStructure ty smiles) store).1.url ty) ∧
    ((buildRequest (.bySimilarity smiles th) store).1.method = .post ∧
      (buildRequest (.bySimilarity smiles th) store).1.body = [("smiles", smiles)] ∧
      1 ≤ countOccurStr (buildRequest (.bySimilarity smiles th) store).1.url (toString th)) ∧
    ((buildRequest (.viewJson cid) store).1.method = .get ∧
      1 ≤ countOccurStr (buildRequest (.viewJson cid) store).1.url cid) ∧
    ((buildRequest (.downloadSdf cid) store).1.method = .get ∧
      1 ≤ countOccurStr (buildRequest (.downloadSdf cid) store).1.url cid) ∧
    ((buildRequest (.crossRef xt xv) store).1.method = .get ∧
      1 ≤ countOccurStr (buildRequest (.crossRef xt xv) store).1.url xt ∧
      1 ≤ countOccurStr (buildRequest (.crossRef xt xv) store).1.url xv) := by
  refine ⟨⟨rfl, ?_⟩, ⟨rfl, ?_⟩, ⟨rfl, ?_⟩, ⟨rfl, ?_⟩, ⟨rfl, ?_, ?_⟩, ⟨rfl, ?_, ?_, ?_⟩,
    ⟨rfl, rfl, ?_⟩, ⟨rfl, rfl, ?_⟩, ⟨rfl, ?_⟩, ⟨rfl, ?_⟩, ⟨rfl, ?_, ?_⟩⟩
  · exact one_le_countOccurStr' _ _ (BASE_URL.toList ++ "/compound/cid/".toList)
      "/property/MolecularFormula,MolecularWeight,SMILES/JSON".toList
      (by simp [buildRequest, byCidUrl, String.toList])
  · exact one_le_countOccurStr' _ _ (BASE_URL.toList ++ "/compound/name/".toList)
      "/cids/TXT".toList (by simp [buildRequest, byNameUrl, String.toList])
  · exact one_le_countOccurStr' _ _ (BASE_URL.toList ++ "/compound/smiles/".toList)
      "/cids/TXT".toList (by simp [buildRequest, bySmilesUrl, String.toList])
  · exact one_le_countOccurStr' _ _ (BASE_URL.toList ++ "/compound/fastformula/".toList)
      "/cids/TXT".toList (by simp [buildRequest, byFormulaUrl, String.toList])
  · exact one_le_countOccurStr' _ _ (BASE_URL.toList ++ "/compound/".toList)
      ("/equals/".toList ++ v.toList ++ "/cids/TXT".toList)
      (by simp [buildRequest, massEqUrl, String.toList])
  · exact one_le_countOccurStr' _ _
      (BASE_URL.toList ++ "/compound/".toList ++ t.toList ++ "/equals/".toList)
      "/cids/TXT".toList (by simp [buildRequest, massEqUrl, String.toList])
  · exact one_le_countOccurStr' _ _ (BASE_URL.toList ++ "/compound/".toList)
      ("/range/".toList ++ lo.toList ++ "/".toList ++ hi.toList ++ "/cids/TXT".toList)
      (by simp [buildRequest, massRangeUrl, String.toList])
  · exact one_le_countOccurStr' _ _
      (BASE_URL.toList ++ "/compound/".toList ++ t.toList ++ "/range/".toList)
      ("/".toList ++ hi.toList ++ "/cids/TXT".toList)
      (by simp [buildRequest, massRangeUrl, String.toList])
  · exact one_le_countOccurStr' _ _
      (BASE_URL.toList ++ "/compound/".toList ++ t.toList ++ "/range/".toList ++
        lo.toList ++ "/".toList)
      "/cids/TXT".toList (by simp [buildRequest, massRangeUrl, String.toList])
  · exact one_le_countOccurStr' _ _ (BASE_URL.toList ++ "/compound/fast".toList)
      "/smiles/cids/TXT".toList (by simp [buildRequest, structureUrl, String.toList])
  · exact one_le_countOccurStr' _ _
      (BASE_URL.toList ++ "/compound/fastsimilarity_2d/smiles/cids/TXT?Threshold=".toList) []
      (by simp [buildRequest, similarityUrl, String.toList])
  · exact one_le_countOccurStr' _ _ (BASE_URL.toList ++ "/compound/cid/".toList)
      "/JSON".toList (by simp [buildRequest, viewJsonUrl, String.toList])
  · exact one_le_countOccurStr' _ _ (BASE_URL.toList ++ "/compound/cid/".toList)
      "/SDF".toList (by simp [buildRequest, sdfUrl, String.toList])
  · exact one_le_countOccurStr' _ _ (BASE_URL.toList ++ "/substance/xref/".toList)
      ("/".toList ++ xv.toList ++ "/sids/JSON".toList)
      (by simp [buildRequest, xrefUrl, String.toList])
  · exact one_le_countOccurStr' _ _
      (BASE_URL.toList ++ "/substance/xref/".toList ++ xt.toList ++ "/".toList)
      "/sids/JSON".toList (by simp [buildRequest, xrefUrl, String.toList])

end Pubchem
